import Mathlib

/-!
Verification of the record-decoding pipeline and the Inception network
builder of this repository.

Part 1 embeds `parse_example_proto` from
`tools/process_imagenet_data/check_record_data.py`.
Part 2 embeds the `Inception` class from `imagenet/model_inception.py`.
-/

namespace RecordDecoder

/-- A serialized Example proto, as the fields `parse_example_proto`
looks up: optional scalar features (`none` means the field is absent
from the record) and variable-length float lists for the four bbox
coordinate fields (an absent VarLen feature parses as the empty list). -/
structure ExampleProto where
  encoded : Option String
  classLabel : Option ℤ
  classText : Option String
  height : Option ℤ
  width : Option ℤ
  bboxXmin : List ℚ
  bboxYmin : List ℚ
  bboxXmax : List ℚ
  bboxYmax : List ℚ
deriving DecidableEq, Repr

/-- The result of `tf.parse_single_example` under the feature map of
`parse_example_proto` (lines 61-81).  Every FixedLenFeature carries a
default value, so an absent field yields its default rather than an
error: shape-[] string features default to the empty string, and the
shape-[1] int64 features default to -1. -/
structure ParsedFeatures where
  encoded : String
  label : List ℤ
  text : String
  height : List ℤ
  width : List ℤ
  xmin : List ℚ
  ymin : List ℚ
  xmax : List ℚ
  ymax : List ℚ
deriving DecidableEq, Repr

/-- `tf.parse_single_example example_serialized feature_map`
(line 81): fills each fixed-length feature from the record, falling
back to the declared default when the field is absent. -/
def parse_single_example (e : ExampleProto) : ParsedFeatures :=
  { encoded := e.encoded.getD ""
    label := [e.classLabel.getD (-1)]
    text := e.classText.getD ""
    height := [e.height.getD (-1)]
    width := [e.width.getD (-1)]
    xmin := e.bboxXmin
    ymin := e.bboxYmin
    xmax := e.bboxXmax
    ymax := e.bboxYmax }

/-- `tf.cast(..., dtype=tf.int32)` on an int64 value: wrap into the
signed 32-bit range. -/
def cast_int32 (x : ℤ) : ℤ := (x + 2 ^ 31) % 2 ^ 32 - 2 ^ 31

/-- `tf.expand_dims(v, 0)` on a rank-1 tensor: shape [n] becomes
shape [1, n]. -/
def expand_dims0 (v : List ℚ) : List (List ℚ) := [v]

/-- `tf.transpose(t, [0, 2, 1])` on a rank-3 tensor: transpose the two
inner axes. -/
def transpose021 (t : List (List (List ℚ))) : List (List (List ℚ)) :=
  t.map List.transpose

/-- The bounding-box tensor computed inside `parse_example_proto`
(lines 84-95): each coordinate list is expanded to shape [1, n], the
four are concatenated along axis 0 in the order ymin, xmin, ymax, xmax,
the result is expanded to [1, 4, n] and transposed to [1, n, 4].
This value is computed by the function but does not appear in its
return statement (line 97). -/
def parse_example_proto_bbox (e : ExampleProto) : List (List (List ℚ)) :=
  let features := parse_single_example e
  let xmin := expand_dims0 features.xmin
  let ymin := expand_dims0 features.ymin
  let xmax := expand_dims0 features.xmax
  let ymax := expand_dims0 features.ymax
  let bbox := ymin ++ xmin ++ ymax ++ xmax
  let bbox := [bbox]
  transpose021 bbox

/-- `parse_example_proto` (lines 25-97): returns
`features['image/encoded'], label, features['image/class/text'],
features['image/height'], features['image/width']` -- five values, with
the computed bbox tensor omitted. -/
def parse_example_proto (e : ExampleProto) :
    String × List ℤ × String × List ℤ × List ℤ :=
  let features := parse_single_example e
  let label := features.label.map cast_int32
  (features.encoded, label, features.text, features.height, features.width)

end RecordDecoder

namespace InceptionModel

/-- Padding mode of a convolution or pooling operation. -/
inductive Pad where
  | SAME
  | VALID
deriving DecidableEq, Repr

/-- One operation descriptor tuple of a branch column, as written in the
`cols` lists of `model_inception.py`: ("conv", out_channels, kh, kw,
[dh, dw, mode]), ("mpool" | "apool", kh, kw, dh, dw, mode), ("share",). -/
inductive Desc where
  | conv (out_channels kh kw dh dw : ℕ) (mode : Pad)
  | mpool (kh kw dh dw : ℕ) (mode : Pad)
  | apool (kh kw dh dw : ℕ) (mode : Pad)
  | share
deriving DecidableEq, Repr

/-- A conv tuple that omits strides and mode, such as ("conv", 64, 1, 1).
Modelled from the spec: `ConvNetBuilder.conv` (convnet_builder.py is
imported by model_inception.py but absent from the repository sources)
defaults the strides to 1, 1 and the mode to SAME, as the call sites and
the spec's operation constraints indicate. -/
def convD (c kh kw : ℕ) : Desc := Desc.conv c kh kw 1 1 Pad.SAME

/-- Columns of `inception_v3_a` (lines 61-65). -/
def inception_v3_a_cols (n : ℕ) : List (List Desc) :=
  [[convD 64 1 1],
   [convD 48 1 1, convD 64 5 5],
   [convD 64 1 1, convD 96 3 3, convD 96 3 3],
   [Desc.apool 3 3 1 1 Pad.SAME, convD n 1 1]]

/-- Columns of `inception_v3_b` (lines 67-73). -/
def inception_v3_b_cols : List (List Desc) :=
  [[Desc.conv 384 3 3 2 2 Pad.VALID],
   [convD 64 1 1, convD 96 3 3, Desc.conv 96 3 3 2 2 Pad.VALID],
   [Desc.mpool 3 3 2 2 Pad.VALID]]

/-- Columns of `inception_v3_c` (lines 75-81). -/
def inception_v3_c_cols (n : ℕ) : List (List Desc) :=
  [[convD 192 1 1],
   [convD n 1 1, convD n 1 7, convD 192 7 1],
   [convD n 1 1, convD n 7 1, convD n 1 7, convD n 7 1, convD 192 1 7],
   [Desc.apool 3 3 1 1 Pad.SAME, convD 192 1 1]]

/-- Columns of `inception_v3_d` (lines 83-88). -/
def inception_v3_d_cols : List (List Desc) :=
  [[convD 192 1 1, Desc.conv 320 3 3 2 2 Pad.VALID],
   [convD 192 1 1, convD 192 1 7, convD 192 7 1, Desc.conv 192 3 3 2 2 Pad.VALID],
   [Desc.mpool 3 3 2 2 Pad.VALID]]

/-- Columns of `inception_v3_e` (lines 90-97). -/
def inception_v3_e_cols (pooltype : String) : List (List Desc) :=
  [[convD 320 1 1],
   [convD 384 1 1, convD 384 1 3],
   [Desc.share, convD 384 3 1],
   [convD 448 1 1, convD 384 3 3, convD 384 1 3],
   [Desc.share, Desc.share, convD 384 3 1],
   [(if pooltype = "max" then Desc.mpool 3 3 1 1 Pad.SAME
     else Desc.apool 3 3 1 1 Pad.SAME), convD 192 1 1]]

/-- Columns of `inception_v4_a` (lines 140-144). -/
def inception_v4_a_cols : List (List Desc) :=
  [[Desc.apool 3 3 1 1 Pad.SAME, convD 96 1 1],
   [convD 96 1 1],
   [convD 64 1 1, convD 96 3 3],
   [convD 64 1 1, convD 96 3 3, convD 96 3 3]]

/-- Columns of `inception_v4_b` (lines 146-152). -/
def inception_v4_b_cols : List (List Desc) :=
  [[Desc.apool 3 3 1 1 Pad.SAME, convD 128 1 1],
   [convD 384 1 1],
   [convD 192 1 1, convD 224 1 7, convD 256 7 1],
   [convD 192 1 1, convD 192 1 7, convD 224 7 1, convD 224 1 7, convD 256 7 1]]

/-- Columns of `inception_v4_c` (lines 154-161). -/
def inception_v4_c_cols : List (List Desc) :=
  [[Desc.apool 3 3 1 1 Pad.SAME, convD 256 1 1],
   [convD 256 1 1],
   [convD 384 1 1, convD 256 1 3],
   [Desc.share, convD 256 3 1],
   [convD 384 1 1, convD 448 1 3, convD 512 3 1, convD 256 3 1],
   [Desc.share, Desc.share, Desc.share, convD 256 1 3]]

/-- Columns of `inception_v4_sa` (lines 164-166). -/
def inception_v4_sa_cols : List (List Desc) :=
  [[Desc.mpool 3 3 2 2 Pad.VALID], [Desc.conv 96 3 3 2 2 Pad.VALID]]

/-- Columns of `inception_v4_sb` (lines 168-172). -/
def inception_v4_sb_cols : List (List Desc) :=
  [[convD 64 1 1, Desc.conv 96 3 3 1 1 Pad.VALID],
   [convD 64 1 1, convD 64 7 1, convD 64 1 7, Desc.conv 96 3 3 1 1 Pad.VALID]]

/-- Columns of `inception_v4_sc` (lines 174-177). -/
def inception_v4_sc_cols : List (List Desc) :=
  [[Desc.conv 192 3 3 2 2 Pad.VALID], [Desc.mpool 3 3 2 2 Pad.VALID]]

/-- Columns of `inception_v4_ra` (lines 180-185). -/
def inception_v4_ra_cols (k l m n : ℕ) : List (List Desc) :=
  [[Desc.mpool 3 3 2 2 Pad.VALID],
   [Desc.conv n 3 3 2 2 Pad.VALID],
   [convD k 1 1, convD l 3 3, Desc.conv m 3 3 2 2 Pad.VALID]]

/-- Columns of `inception_v4_rb` (lines 187-192). -/
def inception_v4_rb_cols : List (List Desc) :=
  [[Desc.mpool 3 3 2 2 Pad.VALID],
   [convD 192 1 1, Desc.conv 192 3 3 2 2 Pad.VALID],
   [convD 256 1 1, convD 256 1 7, convD 320 7 1, Desc.conv 320 3 3 2 2 Pad.VALID]]

/-- One call made against the ConvNetBuilder while a network graph is
constructed: a direct layer call, an inception_module call with its
column list, or the entry into / exit from the auxiliary-head scope
(the `with cnn.switch_to_aux_top_layer()` block). -/
inductive Step where
  | conv (out_channels kh kw dh dw : ℕ) (mode : Pad)
  | mpool (kh kw dh dw : ℕ) (mode : Pad)
  | apool (kh kw dh dw : ℕ) (mode : Pad)
  | inception_module (name : String) (cols : List (List Desc))
  | reshape (shape : List ℤ)
  | spatial_mean
  | dropout (keep : ℚ)
  | aux_switch
  | aux_restore
deriving DecidableEq, Repr

/-- The builder calls made by `incept_v3_aux` (lines 99-107): capture the
top layer and, inside the auxiliary scope, pool, convolve twice and
reshape. -/
def incept_v3_aux_steps : List Step :=
  [Step.aux_switch,
   Step.apool 5 5 3 3 Pad.VALID,
   Step.conv 128 1 1 1 1 Pad.SAME,
   Step.conv 768 5 5 1 1 Pad.VALID,
   Step.reshape [-1, 768],
   Step.aux_restore]

/-- The sequence of builder calls made by `Inception._construct_inception3`
(lines 109-133); the auxiliary-head steps are inserted only when the
`_auxiliary` flag is true (lines 125-126). -/
def construct_inception3 (auxiliary : Bool) : List Step :=
  [Step.conv 32 3 3 2 2 Pad.VALID,
   Step.conv 32 3 3 1 1 Pad.VALID,
   Step.conv 64 3 3 1 1 Pad.SAME,
   Step.mpool 3 3 2 2 Pad.VALID,
   Step.conv 80 1 1 1 1 Pad.VALID,
   Step.conv 192 3 3 1 1 Pad.VALID,
   Step.mpool 3 3 2 2 Pad.VALID,
   Step.inception_module "incept_v3_a" (inception_v3_a_cols 32),
   Step.inception_module "incept_v3_a" (inception_v3_a_cols 64),
   Step.inception_module "incept_v3_a" (inception_v3_a_cols 64),
   Step.inception_module "incept_v3_b" inception_v3_b_cols,
   Step.inception_module "incept_v3_c" (inception_v3_c_cols 128),
   Step.inception_module "incept_v3_c" (inception_v3_c_cols 160),
   Step.inception_module "incept_v3_c" (inception_v3_c_cols 160),
   Step.inception_module "incept_v3_c" (inception_v3_c_cols 192)]
  ++ (if auxiliary then incept_v3_aux_steps else [])
  ++ [Step.inception_module "incept_v3_d" inception_v3_d_cols,
      Step.inception_module "incept_v3_e" (inception_v3_e_cols "avg"),
      Step.inception_module "incept_v3_e" (inception_v3_e_cols "max"),
      Step.apool 8 8 1 1 Pad.VALID,
      Step.reshape [-1, 2048]]

/-- The sequence of builder calls made by `Inception._construct_inception4`
(lines 194-212): three stem convolutions, the three stem modules, the A
module four times, a reduction, the B module seven times, a reduction,
the C module three times, a spatial mean and a final dropout. -/
def construct_inception4 : List Step :=
  [Step.conv 32 3 3 2 2 Pad.VALID,
   Step.conv 32 3 3 1 1 Pad.VALID,
   Step.conv 64 3 3 1 1 Pad.SAME,
   Step.inception_module "incept_v4_sa" inception_v4_sa_cols,
   Step.inception_module "incept_v4_sb" inception_v4_sb_cols,
   Step.inception_module "incept_v4_sc" inception_v4_sc_cols]
  ++ List.replicate 4 (Step.inception_module "incept_v4_a" inception_v4_a_cols)
  ++ [Step.inception_module "incept_v4_ra" (inception_v4_ra_cols 192 224 256 384)]
  ++ List.replicate 7 (Step.inception_module "incept_v4_b" inception_v4_b_cols)
  ++ [Step.inception_module "incept_v4_rb" inception_v4_rb_cols]
  ++ List.replicate 3 (Step.inception_module "incept_v4_c" inception_v4_c_cols)
  ++ [Step.spatial_mean, Step.dropout (8 / 10)]

/-- The list of supported model names (line 29). -/
def inception_list : List String := ["inception3", "inception4"]

/-- A TensorFlow error value, as built (but never raised) on line 37. -/
inductive TFError where
  | InvalidArgumentError (msg : String)
deriving DecidableEq, Repr

/-- The state an `Inception` object holds after `__init__`. -/
structure Inception where
  auxiliary : Bool
  image_size : ℕ
  data_format : String
  model : String
  image_shape : List ℕ
deriving DecidableEq, Repr

/-- The `tf.errors.InvalidArgumentError` value line 37 constructs when
the model name fails the membership test; the statement is a bare
expression, so the value is discarded and nothing is raised. -/
def Inception.unraised_error (model : String) : Option TFError :=
  if model ∈ inception_list then none
  else some (TFError.InvalidArgumentError "Network Model not found.")

/-- `Inception.__init__` (lines 33-47).  The membership check on line 36
only builds an error value (see `Inception.unraised_error`); execution
continues and the object is initialised for every model string, with the
`_auxiliary` flag hard-coded to false. -/
def Inception.init (image_size : ℕ) (data_format : String) (batch_size : ℕ)
    (model : String) : Inception :=
  let _unraised := Inception.unraised_error model
  { auxiliary := false
    image_size := image_size
    data_format := data_format
    model := model
    image_shape :=
      if data_format = "NCHW" then [batch_size, 3, image_size, image_size]
      else [batch_size, image_size, image_size, 3] }

/-- `Inception.inference` (lines 49-54): dispatch on the stored model
name; any other name falls off the end of the method and returns None. -/
def Inception.inference (self : Inception) : Option (List Step) :=
  if self.model = "inception3" then some (construct_inception3 self.auxiliary)
  else if self.model = "inception4" then some construct_inception4
  else none

end InceptionModel

namespace InceptionModel

/-- The error surfaced when the cross-entropy primitive rejects
mismatched batch dimensions (spec name: ShapeMismatch). -/
inductive LossError where
  | ShapeMismatch
deriving DecidableEq, Repr

/-- The external engine primitive `tf.losses.sparse_softmax_cross_entropy`
with its default unit weights and sum-divided-by-number-of-present-weights
reduction: it rejects label batches whose length differs from the logits
batch, and otherwise returns the sum of the per-example cross-entropies
divided by the batch size.  The per-example cross-entropy kernel `xent`
belongs to the external numeric engine and stays abstract. -/
def sparse_softmax_cross_entropy (xent : List ℚ → ℤ → ℚ)
    (logits : List (List ℚ)) (labels : List ℤ) : Except LossError ℚ :=
  if logits.length = labels.length then
    let per := (logits.zip labels).map fun p => xent p.1 p.2
    Except.ok (per.sum / per.length)
  else Except.error LossError.ShapeMismatch

/-- `tf.reduce_mean` over the flat element list of a tensor. -/
def reduce_mean (xs : List ℚ) : ℚ := xs.sum / xs.length

/-- `Inception.loss` (lines 214-218): the cross-entropy op reduces to a
scalar already; `tf.reduce_mean` is then applied to that scalar. -/
def Inception.loss (_self : Inception) (xent : List ℚ → ℤ → ℚ)
    (logits : List (List ℚ)) (labels : List ℤ) : Except LossError ℚ :=
  match sparse_softmax_cross_entropy xent logits labels with
  | Except.ok cross_entropy => Except.ok (reduce_mean [cross_entropy])
  | Except.error e => Except.error e

/-- Modelled from the spec: channel count after one non-share operation
of `ConvNetBuilder` (convnet_builder.py is imported but absent from the
repository sources; spec 4.1): a convolution sets the channel count to
its out_channels, pooling leaves it unchanged. -/
def descChannels (current : ℕ) : Desc → ℕ
  | Desc.conv c _ _ _ _ _ => c
  | Desc.mpool _ _ _ _ _ => current
  | Desc.apool _ _ _ _ _ => current
  | Desc.share => current

/-- Modelled from the spec: the walk of one column of an inception
module (spec 4.4), returning the channel count after every position.
A share descriptor at position i reuses the tensor the previous column
produced at position i, so its channel count is read off `prev`; any
other descriptor acts on the running tensor of this column. -/
def columnChannelsGo (prev : List ℕ) : ℕ → ℕ → List Desc → List ℕ
  | _, _, [] => []
  | current, i, op :: rest =>
    let c := match op with
      | Desc.share => prev.getD i 0
      | _ => descChannels current op
    c :: columnChannelsGo prev c (i + 1) rest

/-- Modelled from the spec: per-column channel traces of a module, each
column starting from the shared module input and seeing the trace of
the immediately preceding column (spec 4.4). -/
def moduleColumnTraces (input : ℕ) : List ℕ → List (List Desc) → List (List ℕ)
  | _, [] => []
  | prev, col :: rest =>
    let t := columnChannelsGo prev input 0 col
    t :: moduleColumnTraces input t rest

/-- Modelled from the spec: the output of `inception_module` is the
channel-axis concatenation of the final tensor of every column, so its
channel count is the sum of the columns
final channel counts (spec 4.4 and testable property 1). -/
def moduleOutChannels (input : ℕ) (cols : List (List Desc)) : ℕ :=
  ((moduleColumnTraces input [] cols).map fun t => t.getLastD input).sum

/-- Modelled from the spec: channel count after one builder step
(spec 4.1, 4.3): conv sets it, pooling, dropout and the spatial mean
preserve it (the spatial mean collapses only the spatial axes), a
reshape to [-1, n] leaves n values per row, and a module concatenates
its columns. -/
def stepChannels (current : ℕ) : Step → ℕ
  | Step.conv c _ _ _ _ _ => c
  | Step.mpool _ _ _ _ _ => current
  | Step.apool _ _ _ _ _ => current
  | Step.inception_module _ cols => moduleOutChannels current cols
  | Step.reshape s => (s.getLastD 0).toNat
  | Step.spatial_mean => current
  | Step.dropout _ => current
  | Step.aux_switch => current
  | Step.aux_restore => current

/-- The shape state threaded through a build: the batch axis, the
channel count of the current top tensor, and the channel count of the
saved primary tensor while the auxiliary scope is open. -/
structure BuildShape where
  batch : ℕ
  channels : ℕ
  auxSaved : Option ℕ
deriving DecidableEq, Repr

/-- Modelled from the spec: how one builder step transforms the shape
state.  No operation touches the batch axis; entering the auxiliary
scope saves the primary channel count and leaving it restores it
(spec 4.1 switch_to_auxiliary / restore_primary). -/
def stepShape (st : BuildShape) : Step → BuildShape
  | Step.aux_switch => { st with auxSaved := some st.channels }
  | Step.aux_restore =>
      { st with channels := st.auxSaved.getD st.channels, auxSaved := none }
  | op => { st with channels := stepChannels st.channels op }

/-- Shape state after running the whole inception4 construction on an
input batch of RGB images (3 input channels). -/
def construct_inception4_shape (batch : ℕ) : BuildShape :=
  construct_inception4.foldl stepShape { batch := batch, channels := 3, auxSaved := none }

/-- Modelled from the spec: the engine dropout primitive behind
`ConvNetBuilder.dropout` (spec 4.1): an element is kept, rescaled by
1 / keep, when its uniform noise sample u from [0, 1) satisfies
keep + u >= 1, and zeroed otherwise. -/
def dropoutElem (keep u x : ℚ) : ℚ := if 1 ≤ keep + u then x / keep else 0

/-- Modelled from the spec: dropout over the flat element list of a
tensor, one independent uniform noise sample per element. -/
def dropoutTensor (keep : ℚ) (noise xs : List ℚ) : List ℚ :=
  List.zipWith (dropoutElem keep) noise xs

/-- The column lists of every `inception_module` call of a step trace,
in call order. -/
def moduleSpecs (steps : List Step) : List (List (List Desc)) :=
  steps.filterMap fun s => match s with
    | Step.inception_module _ cols => some cols
    | _ => none

/-- Every BranchSpec the program passes to `inception_module`: the
modules of the v3 construction (with and without the auxiliary head,
which adds no module call) and of the v4 construction. -/
def all_branch_specs : List (List (List Desc)) :=
  moduleSpecs (construct_inception3 false) ++ moduleSpecs (construct_inception3 true)
    ++ moduleSpecs construct_inception4

/-- Check of one column of a BranchSpec against the length of the
previous column: every share descriptor, at its position i, must have a
same-position operation in the previous column to reuse (i < prevLen);
in the first column prevLen is 0, so any share fails. -/
def columnSharesOkGo (prevLen : ℕ) : ℕ → List Desc → Bool
  | _, [] => true
  | i, Desc.share :: rest => decide (i < prevLen) && columnSharesOkGo prevLen (i + 1) rest
  | i, _ :: rest => columnSharesOkGo prevLen (i + 1) rest

/-- Walk of the columns of a BranchSpec, carrying the previous column. -/
def shareBackrefOkGo : List Desc → List (List Desc) → Bool
  | _, [] => true
  | prev, col :: rest => columnSharesOkGo prev.length 0 col && shareBackrefOkGo col rest

/-- A BranchSpec has resolvable share back-references: no share in the
first column, and every share at position i of a later column points at
an existing position i of the column before it. -/
def shareBackrefOk (cols : List (List Desc)) : Bool :=
  shareBackrefOkGo [] cols

end InceptionModel

open RecordDecoder InceptionModel

/-- Helper for the dropout part of the v4 round-trip property: dropout
at keep probability 1 keeps every element (keep + u is at least 1 for
any nonnegative noise sample) and rescales by 1, so it is the identity
on the element list. -/
theorem dropoutTensor_one_id : ∀ (noise xs : List ℚ), noise.length = xs.length →
    (∀ u ∈ noise, 0 ≤ u) → dropoutTensor 1 noise xs = xs
  | [], [], _, _ => rfl
  | [], _ :: _, h, _ => by simp at h
  | _ :: _, [], h, _ => by simp at h
  | u :: rest, x :: t, h, hnn => by
    have hu : (0 : ℚ) ≤ u := hnn u (by simp)
    have hcond : (1 : ℚ) ≤ 1 + u := by linarith
    have tail := dropoutTensor_one_id rest t (by simpa using h)
      (fun v hv => hnn v (by simp [hv]))
    simp only [dropoutTensor, List.zipWith_cons_cons, dropoutElem]
    rw [if_pos hcond, div_one]
    exact congrArg (List.cons x) tail

/-- C1: `parse_example_proto` assembles, at the record with
xmin=[0.1,0.3], ymin=[0.2,0.4], xmax=[0.9,0.5], ymax=[0.6,0.7], the
bbox tensor [[(0.2,0.1,0.6,0.9), (0.4,0.3,0.7,0.5)]] in exactly the
claimed per-box order -- but the value returned to the caller is the
five-tuple (encoded, label, text, height, width), from which the bbox
is absent, contradicting the claim (and the function docstring, which
lists bbox among the returns). -/
theorem parse_example_proto_drops_bbox :
    parse_example_proto_bbox
        ⟨some "jpeg", some 615, some "knee pad", some 462, some 581,
         [1/10, 3/10], [2/10, 4/10], [9/10, 5/10], [6/10, 7/10]⟩ =
      [[[2/10, 1/10, 6/10, 9/10], [4/10, 3/10, 7/10, 5/10]]] ∧
    parse_example_proto
        ⟨some "jpeg", some 615, some "knee pad", some 462, some 581,
         [1/10, 3/10], [2/10, 4/10], [9/10, 5/10], [6/10, 7/10]⟩ =
      ("jpeg", [615], "knee pad", [462], [581]) := by
  exact ⟨rfl, by decide⟩

/-- C2 counterexample: decoding a record from which image/encoded is
absent does not fail -- `parse_example_proto` substitutes the declared
default (the empty string) and returns an ordinary record, refuting the
claim that a missing required field yields a MalformedRecord failure. -/
theorem parse_missing_encoded_returns_default :
    parse_example_proto ⟨none, some 615, some "knee pad", some 462, some 581, [], [], [], []⟩ =
      ("", [615], "knee pad", [462], [581]) := by decide

/-- C2 amended: decoding never fails on an absent required field: for
every record, independently for each of the five fixed-schema fields,
if that field is absent then the corresponding component of the decoded
record is the field's declared default value (the empty string for the
bytes fields, -1 for the integer fields), whatever the other fields
hold. -/
theorem parse_absent_fields_yield_defaults (e : ExampleProto) :
    (e.encoded = none → (parse_example_proto e).1 = "") ∧
    (e.classLabel = none → (parse_example_proto e).2.1 = [-1]) ∧
    (e.classText = none → (parse_example_proto e).2.2.1 = "") ∧
    (e.height = none → (parse_example_proto e).2.2.2.1 = [-1]) ∧
    (e.width = none → (parse_example_proto e).2.2.2.2 = [-1]) := by
  refine ⟨fun h => ?_, fun h => ?_, fun h => ?_, fun h => ?_, fun h => ?_⟩
  · simp [parse_example_proto, parse_single_example, h]
  · simp only [parse_example_proto, parse_single_example, h, Option.getD_none,
      List.map_cons, List.map_nil]
    decide
  · simp [parse_example_proto, parse_single_example, h]
  · simp [parse_example_proto, parse_single_example, h]
  · simp [parse_example_proto, parse_single_example, h]

/-- Witness for the amended C2 theorem at the claim's own instance: a
record missing only image/encoded, every other field present, decodes
with the default empty string in the encoded component. -/
theorem parse_absent_fields_yield_defaults_witness :
    (⟨none, some 615, some "knee pad", some 462, some 581, [1/10], [2/10], [9/10], [6/10]⟩ :
        ExampleProto).encoded = none ∧
    (parse_example_proto
        ⟨none, some 615, some "knee pad", some 462, some 581, [1/10], [2/10], [9/10], [6/10]⟩).1 =
      "" :=
  ⟨rfl,
    (parse_absent_fields_yield_defaults
      ⟨none, some 615, some "knee pad", some 462, some 581, [1/10], [2/10], [9/10], [6/10]⟩).1 rfl⟩

/-- C3: constructing an Inception with model "inception5" does NOT
fail: the membership test produces an InvalidArgumentError value that
is never raised, and `__init__` completes, returning a fully
initialised object that stores the unsupported name. -/
theorem init_inception5_completes :
    "inception5" ∉ inception_list ∧
    Inception.unraised_error "inception5" =
      some (TFError.InvalidArgumentError "Network Model not found.") ∧
    Inception.init 299 "NCHW" 32 "inception5" =
      { auxiliary := false, image_size := 299, data_format := "NCHW",
        model := "inception5", image_shape := [32, 3, 299, 299] } := by
  refine ⟨by decide, by decide, by decide⟩

/-- C4 counterexample: the column list of inception_v3_e, which the v3
construction passes to inception_module, has a column (index 2) whose
FIRST operation is the share descriptor -- refuting the claim that
ShareWithPrevious never appears as the first operation of a column. -/
theorem share_heads_a_used_column :
    inception_v3_e_cols "avg" ∈ all_branch_specs ∧
    ((inception_v3_e_cols "avg").getD 2 []).head? = some Desc.share := by
  exact ⟨by decide, by decide⟩

/-- C4 amended: in every BranchSpec the program passes to
inception_module, ShareWithPrevious never appears in the FIRST COLUMN,
and every share at position i of a later column has an operation at
position i of the immediately preceding column to reuse (the
back-reference always resolves); it does, however, appear as the first
operation of later columns in inception_v3_e and inception_v4_c. -/
theorem share_never_in_first_column :
    all_branch_specs.all shareBackrefOk = true := by decide

/-- C5: the inception4 construction is the fixed sequence of three stem
convolutions, the three stem modules, exactly 4 A modules, the RA
reduction, exactly 7 B modules, the RB reduction, exactly 3 C modules,
a spatial mean and a final dropout, in that order. -/
theorem construct_inception4_sequence :
    construct_inception4.count (Step.inception_module "incept_v4_a" inception_v4_a_cols) = 4 ∧
    construct_inception4.count (Step.inception_module "incept_v4_b" inception_v4_b_cols) = 7 ∧
    construct_inception4.count (Step.inception_module "incept_v4_c" inception_v4_c_cols) = 3 ∧
    construct_inception4 =
      [Step.conv 32 3 3 2 2 Pad.VALID,
       Step.conv 32 3 3 1 1 Pad.VALID,
       Step.conv 64 3 3 1 1 Pad.SAME,
       Step.inception_module "incept_v4_sa" inception_v4_sa_cols,
       Step.inception_module "incept_v4_sb" inception_v4_sb_cols,
       Step.inception_module "incept_v4_sc" inception_v4_sc_cols,
       Step.inception_module "incept_v4_a" inception_v4_a_cols,
       Step.inception_module "incept_v4_a" inception_v4_a_cols,
       Step.inception_module "incept_v4_a" inception_v4_a_cols,
       Step.inception_module "incept_v4_a" inception_v4_a_cols,
       Step.inception_module "incept_v4_ra" (inception_v4_ra_cols 192 224 256 384),
       Step.inception_module "incept_v4_b" inception_v4_b_cols,
       Step.inception_module "incept_v4_b" inception_v4_b_cols,
       Step.inception_module "incept_v4_b" inception_v4_b_cols,
       Step.inception_module "incept_v4_b" inception_v4_b_cols,
       Step.inception_module "incept_v4_b" inception_v4_b_cols,
       Step.inception_module "incept_v4_b" inception_v4_b_cols,
       Step.inception_module "incept_v4_b" inception_v4_b_cols,
       Step.inception_module "incept_v4_rb" inception_v4_rb_cols,
       Step.inception_module "incept_v4_c" inception_v4_c_cols,
       Step.inception_module "incept_v4_c" inception_v4_c_cols,
       Step.inception_module "incept_v4_c" inception_v4_c_cols,
       Step.spatial_mean, Step.dropout (8 / 10)] := by
  refine ⟨by decide, by decide, by decide, rfl⟩

/-- C6 counterexample: the channel count the inception4 construction
leaves after the spatial mean is 1536, not 2048: the final feature
vector does not have the claimed 2048-feature length. -/
theorem inception4_out_channels_ne_2048 :
    (construct_inception4_shape 1).channels = 1536 ∧ (1536 : ℕ) ≠ 2048 := by
  exact ⟨by decide, by decide⟩

set_option maxRecDepth 40000 in
/-- C6 amended: for every batch size the inception4 construction ends
with shape [batch, 1536] -- a fixed per-example feature length of 1536,
independent of the batch size -- and dropout at keep probability 1 is
the identity on any tensor (given one uniform noise sample in [0, 1)
per element). -/
theorem inception4_output_1536_and_dropout_identity (batch : ℕ) (noise xs : List ℚ)
    (hlen : noise.length = xs.length) (hnn : ∀ u ∈ noise, 0 ≤ u) :
    construct_inception4_shape batch = ⟨batch, 1536, none⟩ ∧
    dropoutTensor 1 noise xs = xs :=
  ⟨rfl, dropoutTensor_one_id noise xs hlen hnn⟩

/-- Witness for the amended C6 theorem at batch 8 and a concrete
two-element tensor. -/
theorem inception4_output_1536_and_dropout_identity_witness :
    ([0, 1/2] : List ℚ).length = ([3, 4] : List ℚ).length ∧
    (∀ u ∈ ([0, 1/2] : List ℚ), 0 ≤ u) ∧
    (construct_inception4_shape 8 = ⟨8, 1536, none⟩ ∧
      dropoutTensor 1 [0, 1/2] [3, 4] = [3, 4]) :=
  ⟨rfl, by norm_num,
    inception4_output_1536_and_dropout_identity 8 [0, 1/2] [3, 4] rfl (by norm_num)⟩

/-- C7: when the batch dimensions agree, `Inception.loss` returns the
arithmetic mean over the batch of the per-example sparse categorical
cross-entropies: the cross-entropy op reduces to sum / batch, and the
extra `tf.reduce_mean` on that scalar leaves it unchanged. -/
theorem loss_is_batch_mean_xent (self : Inception) (xent : List ℚ → ℤ → ℚ)
    (logits : List (List ℚ)) (labels : List ℤ)
    (h : logits.length = labels.length) :
    Inception.loss self xent logits labels =
      Except.ok ((((logits.zip labels).map fun p => xent p.1 p.2).sum) /
        (logits.length : ℚ)) := by
  simp [Inception.loss, sparse_softmax_cross_entropy, reduce_mean, h, div_one,
    List.length_zip, min_self]

/-- Witness for C7 at a batch of two examples and a constant kernel. -/
theorem loss_is_batch_mean_xent_witness :
    ([[1, 2], [3, 4]] : List (List ℚ)).length = ([0, 1] : List ℤ).length ∧
    Inception.loss (Inception.init 299 "NCHW" 32 "inception4") (fun _ _ => (1 : ℚ))
        [[1, 2], [3, 4]] [0, 1] =
      Except.ok (((([[1, 2], [3, 4]] : List (List ℚ)).zip ([0, 1] : List ℤ)).map
          fun p => (fun _ _ => (1 : ℚ)) p.1 p.2).sum /
        (([[1, 2], [3, 4]] : List (List ℚ)).length : ℚ)) :=
  ⟨rfl, loss_is_batch_mean_xent _ _ _ _ rfl⟩

/-- C8: when the batch dimensions disagree, `Inception.loss` surfaces
the shape-mismatch failure of the cross-entropy primitive instead of
returning a scalar. -/
theorem loss_shape_mismatch (self : Inception) (xent : List ℚ → ℤ → ℚ)
    (logits : List (List ℚ)) (labels : List ℤ)
    (h : logits.length ≠ labels.length) :
    Inception.loss self xent logits labels = Except.error LossError.ShapeMismatch := by
  unfold Inception.loss sparse_softmax_cross_entropy
  rw [if_neg h]

/-- Witness for C8 at logits batch 8 against labels batch 4. -/
theorem loss_shape_mismatch_witness :
    (List.replicate 8 [(0 : ℚ)]).length ≠ (List.replicate 4 (0 : ℤ)).length ∧
    Inception.loss (Inception.init 299 "NCHW" 32 "inception4") (fun _ _ => (0 : ℚ))
        (List.replicate 8 [(0 : ℚ)]) (List.replicate 4 (0 : ℤ)) =
      Except.error LossError.ShapeMismatch :=
  ⟨by decide, loss_shape_mismatch _ _ _ _ (by decide)⟩

/-- C9: for any model name outside the supported list, `__init__`
nevertheless completes -- the InvalidArgumentError value is created but
never raised, the object stores the name -- and `inference` on that
object falls through both dispatch tests and returns None. -/
theorem init_invalid_model_completes_inference_none
    (image_size : ℕ) (data_format : String) (batch_size : ℕ) (model : String)
    (h : model ∉ inception_list) :
    Inception.unraised_error model =
        some (TFError.InvalidArgumentError "Network Model not found.") ∧
    (Inception.init image_size data_format batch_size model).model = model ∧
    (Inception.init image_size data_format batch_size model).inference = none := by
  have h3 : model ≠ "inception3" := fun e => h (by rw [e]; simp [inception_list])
  have h4 : model ≠ "inception4" := fun e => h (by rw [e]; simp [inception_list])
  refine ⟨?_, rfl, ?_⟩
  · unfold Inception.unraised_error
    rw [if_neg h]
  · simp [Inception.inference, Inception.init, h3, h4]

/-- Witness for C9 at the model name "inception5". -/
theorem init_invalid_model_witness :
    "inception5" ∉ inception_list ∧
    (Inception.unraised_error "inception5" =
        some (TFError.InvalidArgumentError "Network Model not found.") ∧
      (Inception.init 224 "NHWC" 16 "inception5").model = "inception5" ∧
      (Inception.init 224 "NHWC" 16 "inception5").inference = none) :=
  ⟨by decide, init_invalid_model_completes_inference_none 224 "NHWC" 16 "inception5" (by decide)⟩

/-- C10: the auxiliary head is dead code: every constructed Inception
has its auxiliary flag false, so no trace `inference` produces contains
the auxiliary-scope entry step; the aux steps are genuinely guarded by
the flag, as the v3 construction run with the flag forced true does
contain that step. -/
theorem aux_head_never_executed :
    (∀ (image_size : ℕ) (data_format : String) (batch_size : ℕ) (model : String),
        (Inception.init image_size data_format batch_size model).auxiliary = false ∧
        ((Inception.init image_size data_format batch_size model).inference.getD []).all
            (fun st => decide (st ≠ Step.aux_switch)) = true) ∧
    Step.aux_switch ∈ construct_inception3 true := by
  constructor
  · intro image_size data_format batch_size model
    refine ⟨rfl, ?_⟩
    unfold Inception.inference
    split_ifs with h3 h4
    · exact (by decide :
        ((construct_inception3 false).all (fun st => decide (st ≠ Step.aux_switch))) = true)
    · exact (by decide :
        (construct_inception4.all (fun st => decide (st ≠ Step.aux_switch))) = true)
    · rfl
  · decide
